import Mathlib

/-!
Verification of the openage internal nyan name registry
(openage/convert/dataformat/aoc/internal_nyan_names.py) and the
three-stage conversion pipeline contract documented in
openage/convert/processor/__init__.py.

The five lookup tables are transcribed verbatim from the Python source
as association lists. The lookup operation itself, the registry
interface and the pipeline driver are only documented in the source
(as module docstrings and the data contract of Python dictionaries),
so they are modelled from the specification where noted.
-/

namespace InternalNyanNames

/-- Transcribed from unit_line_lookups in internal_nyan_names.py.
key: line_id; value: nyan object name. -/
def unit_line_lookups : List (Nat × String) :=
  [(3, "FishingShip"),
   (4, "Swordsman"),
   (22, "Archer"),
   (23, "TradeCog"),
   (24, "Spearman"),
   (26, "Galley"),
   (27, "TradeCart"),
   (28, "Skirmisher"),
   (29, "TransportShip"),
   (49, "Ram"),
   (50, "Cataphract"),
   (51, "ChoKoNu"),
   (52, "Conquistador"),
   (53, "CamelRider"),
   (54, "HorseArcher"),
   (55, "Mameluke"),
   (56, "EagleWarrior"),
   (57, "FireTrireme"),
   (58, "Huscarl"),
   (59, "JaguarWarrior"),
   (60, "Janissary"),
   (61, "Knight"),
   (62, "Longboat"),
   (63, "Longbowman"),
   (64, "Mangonel"),
   (66, "Missionary"),
   (67, "Mangudai"),
   (68, "WarElephant"),
   (69, "Petard"),
   (70, "PlumedArcher"),
   (71, "DemolitionShip"),
   (72, "Scorpion"),
   (73, "Samurai"),
   (74, "Tarkan"),
   (75, "ThrowingAxeman"),
   (76, "TeutonicKnight"),
   (77, "TurtleShip"),
   (78, "Berserk"),
   (79, "WarWaggon"),
   (80, "WoadRaider"),
   (113, "BombardCannon"),
   (114, "CannonGalleon"),
   (115, "HandCannoneer")]

/-- Transcribed from building_line_lookups in internal_nyan_names.py. -/
def building_line_lookups : List (Nat × String) :=
  [(12, "Barracks"),
   (45, "Harbor"),
   (49, "SiegeWorkshop"),
   (50, "Farm"),
   (68, "Mill"),
   (70, "House"),
   (72, "PalisadeWall"),
   (79, "Tower"),
   (82, "Castle"),
   (84, "Market"),
   (87, "ArcheryRange"),
   (101, "Stable"),
   (103, "Blacksmith"),
   (104, "Monastery"),
   (117, "StoneWall"),
   (199, "FishingTrap"),
   (209, "University"),
   (236, "BombardTower"),
   (276, "Wonder"),
   (487, "StoneGate"),
   (562, "LumberCamp"),
   (584, "MiningCamp"),
   (598, "Outpost")]

/-- Transcribed from transform_group_lookups in internal_nyan_names.py. -/
def transform_group_lookups : List (Nat × String) :=
  [(116, "Trebuchet")]

/-- Transcribed from villager_group_lookups in internal_nyan_names.py. -/
def villager_group_lookups : List (Nat × String) :=
  [(5, "Villager")]

/-- Transcribed from monk_group_lookups in internal_nyan_names.py. -/
def monk_group_lookups : List (Nat × String) :=
  [(65, "Monk")]

/-- The five table categories of the name registry. -/
inductive Category : Type
  | unit
  | building
  | transform_group
  | villager_group
  | monk_group
deriving DecidableEq

/-- The table belonging to a category. -/
def table : Category → List (Nat × String)
  | Category.unit => unit_line_lookups
  | Category.building => building_line_lookups
  | Category.transform_group => transform_group_lookups
  | Category.villager_group => villager_group_lookups
  | Category.monk_group => monk_group_lookups

/-- Association-list lookup: the semantics of indexing a Python
dictionary whose literal has no duplicate keys, returning none where
the dictionary raises KeyError. -/
def lookupTable : List (Nat × String) → Nat → Option String
  | [], _ => none
  | (k, v) :: rest, key => if key = k then some v else lookupTable rest key

/-- Modelled from the spec: the registry exposes
lookup(category, key) -> name, returning the associated string when the
key is present in the category table and a NotFoundError signal
(here: none) when it is absent. Only the five tables exist in the
source; the accessor is the dictionary-indexing contract the spec
documents. -/
def lookup (c : Category) (key : Nat) : Option String :=
  lookupTable (table c) key

/-- The key set of a table. -/
def tableKeys (tbl : List (Nat × String)) : List Nat :=
  tbl.map Prod.fst

/-- The value list of a table. -/
def tableValues (tbl : List (Nat × String)) : List String :=
  tbl.map Prod.snd

/-- A value is usable as a symbolic object name: non-empty, only
alphanumeric characters, no whitespace. -/
def isValidName (s : String) : Bool :=
  !s.isEmpty && s.data.all Char.isAlphanum && !s.data.any Char.isWhitespace

theorem lookupTable_eq_some_of_mem (l : List (Nat × String)) (k : Nat) (v : String)
    (hnd : (tableKeys l).Nodup) (hm : (k, v) ∈ l) : lookupTable l k = some v := by
  induction l with
  | nil => cases hm
  | cons p rest ih =>
    obtain ⟨k', v'⟩ := p
    rw [tableKeys, List.map_cons, List.nodup_cons] at hnd
    obtain ⟨hk', hnd'⟩ := hnd
    rcases List.mem_cons.mp hm with heq | hmem
    · obtain ⟨h1, h2⟩ := Prod.mk.injEq .. ▸ heq
      subst h1
      subst h2
      simp [lookupTable]
    · have hne : k ≠ k' := by
        intro h
        subst h
        exact hk' (List.mem_map.mpr ⟨(k, v), hmem, rfl⟩)
      simpa [lookupTable, hne] using ih hnd' hmem

theorem lookupTable_eq_none_of_not_mem (l : List (Nat × String)) (k : Nat)
    (h : k ∉ tableKeys l) : lookupTable l k = none := by
  induction l with
  | nil => rfl
  | cons p rest ih =>
    obtain ⟨k', v'⟩ := p
    rw [tableKeys, List.map_cons, List.mem_cons] at h
    push_neg at h
    obtain ⟨h1, h2⟩ := h
    simpa [lookupTable, h1] using ih h2

/-- Claim C1: for every (category, key) pair present in one of the five
tables, lookup returns exactly the stored string; in particular
lookup unit 4 gives Swordsman and lookup building 82 gives Castle. -/
theorem lookup_returns_stored (c : Category) (k : Nat) (v : String)
    (h : (k, v) ∈ table c) : lookup c k = some v := by
  cases c <;> exact lookupTable_eq_some_of_mem _ k v (by decide) h

theorem lookup_returns_stored_witness :
    lookup Category.unit 4 = some "Swordsman" ∧
      lookup Category.building 82 = some "Castle" :=
  ⟨lookup_returns_stored Category.unit 4 "Swordsman" (by decide),
   lookup_returns_stored Category.building 82 "Castle" (by decide)⟩

/-- Claim C2: for every category and key absent from that category
table, lookup signals absence (none) and returns no string; in
particular lookup unit 9999 is the not-found signal. -/
theorem lookup_absent (c : Category) (k : Nat)
    (h : k ∉ tableKeys (table c)) : lookup c k = none := by
  cases c <;> exact lookupTable_eq_none_of_not_mem _ k h

theorem lookup_absent_witness : lookup Category.unit 9999 = none :=
  lookup_absent Category.unit 9999 (by decide)

/-- Claim C3 counterexample: the unit table does not have 42 entries
(it has 43), so the claimed sizes are false as stated. -/
theorem table_sizes_claim_false :
    ¬ (unit_line_lookups.length = 42 ∧ building_line_lookups.length = 23) := by
  decide

/-- Claim C3 (amended): the unit table contains exactly 43 entries and
the building table contains exactly 23 entries. -/
theorem table_sizes : unit_line_lookups.length = 43 ∧
    building_line_lookups.length = 23 := by
  decide

/-- Claim C4: within each of the five tables every key is unique: the
key list of each table has no duplicates, so no key of a table maps to
more than one value. -/
theorem keys_unique : ∀ c : Category, (tableKeys (table c)).Nodup := by
  intro c
  cases c <;> decide

/-- Claim C5: every value stored in any of the five tables is a
non-empty string of alphanumeric characters with no whitespace. -/
theorem values_valid :
    ∀ c : Category, (table c).all (fun p => isValidName p.2) = true := by
  intro c
  cases c <;> decide

/-- The registry as mutable-looking state: one field per table, so that
lookup calls can be modelled as state-passing operations and absence of
side effects becomes a provable statement rather than an assumption. -/
structure RegistryState : Type where
  unit_tbl : List (Nat × String)
  building_tbl : List (Nat × String)
  transform_tbl : List (Nat × String)
  villager_tbl : List (Nat × String)
  monk_tbl : List (Nat × String)

/-- The registry state constructed at module initialization from the
five static tables of internal_nyan_names.py. -/
def loadedRegistry : RegistryState :=
  ⟨unit_line_lookups, building_line_lookups, transform_group_lookups,
   villager_group_lookups, monk_group_lookups⟩

/-- The table a category selects inside a registry state. -/
def stateTable (s : RegistryState) : Category → List (Nat × String)
  | Category.unit => s.unit_tbl
  | Category.building => s.building_tbl
  | Category.transform_group => s.transform_tbl
  | Category.villager_group => s.villager_tbl
  | Category.monk_group => s.monk_tbl

/-- Modelled from the spec: a lookup call against the registry state,
returning its result together with the state after the call. The
registry exposes only this operation; there is no insert, update or
delete. -/
def lookupCall (s : RegistryState) (c : Category) (k : Nat) :
    Option String × RegistryState :=
  (lookupTable (stateTable s c) k, s)

/-- Running a sequence of lookup calls against the registry state,
collecting the results and threading the state. -/
def runCalls (s : RegistryState) : List (Category × Nat) →
    List (Option String) × RegistryState
  | [] => ([], s)
  | (c, k) :: rest =>
      ((lookupCall s c k).1 :: (runCalls (lookupCall s c k).2 rest).1,
       (runCalls (lookupCall s c k).2 rest).2)

/-- Claim C6: lookup is pure and idempotent: a call leaves the registry
state unchanged, and a repeated call of the same (category, key) after
a first call returns an identical result. -/
theorem lookup_pure_idempotent (s : RegistryState) (c : Category) (k : Nat) :
    (lookupCall s c k).2 = s ∧
      (lookupCall (lookupCall s c k).2 c k).1 = (lookupCall s c k).1 :=
  ⟨rfl, rfl⟩

/-- Claim C7: the registry interface exposes only lookup, and every
sequence of lookup calls leaves the registry state identical to what it
was before the sequence ran. -/
theorem tables_unchanged_by_lookups (calls : List (Category × Nat))
    (s : RegistryState) : (runCalls s calls).2 = s := by
  induction calls generalizing s with
  | nil => rfl
  | cons p rest ih =>
    obtain ⟨c, k⟩ := p
    exact ih s

/-- Claim C9: key uniqueness does not extend across tables: key 49 is
present in both the unit and the building table with different names
(Ram versus SiegeWorkshop), so lookup genuinely depends on the
category argument. -/
theorem key_collision_across_tables :
    lookup Category.unit 49 = some "Ram" ∧
      lookup Category.building 49 = some "SiegeWorkshop" ∧
      lookup Category.unit 49 ≠ lookup Category.building 49 := by
  refine ⟨rfl, rfl, ?_⟩
  decide

/-- Claim C10: within each of the five tables the mapping is injective:
the value list of each table has no duplicates, so a name determines
the key it came from within that category. -/
theorem values_injective : ∀ c : Category, (tableValues (table c)).Nodup := by
  intro c
  cases c <;> decide

end InternalNyanNames

namespace ConvertProcessor

/-- The three pipeline stages documented in the module docstring of
openage/convert/processor/__init__.py. -/
inductive Stage : Type
  | preStage
  | procStage
  | postStage
deriving DecidableEq

/-- An observable event of the conversion driver: a stage starting or
completing. -/
inductive StageEvent : Type
  | started (s : Stage)
  | completed (s : Stage)
deriving DecidableEq

/-- Running one stage: apply its transformation to the whole input and
record its start and completion events. -/
def runStage {A B : Type} (st : Stage) (f : A → B) (x : A) :
    B × List StageEvent :=
  (f x, [StageEvent.started st, StageEvent.completed st])

/-- Modelled from the spec: the conversion driver runs the
pre-processor, the processor and the post-processor strictly in
sequence, each stage consuming the full output of its predecessor. The
processor package contains only this contract as a docstring; no
executable driver is in the source. -/
def runDriver {A B C D : Type} (pre : A → B) (proc : B → C) (post : C → D)
    (x : A) : D × List StageEvent :=
  ((runStage Stage.postStage post
      (runStage Stage.procStage proc (runStage Stage.preStage pre x).1).1).1,
   (runStage Stage.preStage pre x).2 ++
     (runStage Stage.procStage proc (runStage Stage.preStage pre x).1).2 ++
     (runStage Stage.postStage post
       (runStage Stage.procStage proc (runStage Stage.preStage pre x).1).1).2)

/-- Claim C8: in every execution of the conversion driver the stages
run in strict sequence: the processor starts only after the
pre-processor has completed, the post-processor starts only after the
processor has completed, and each stage consumes the full output of its
predecessor, so the final result is the composition of the three
stages. -/
theorem stages_strictly_sequential {A B C D : Type} (pre : A → B)
    (proc : B → C) (post : C → D) (x : A) :
    (runDriver pre proc post x).2 =
      [StageEvent.started Stage.preStage, StageEvent.completed Stage.preStage,
       StageEvent.started Stage.procStage, StageEvent.completed Stage.procStage,
       StageEvent.started Stage.postStage, StageEvent.completed Stage.postStage] ∧
    ((runDriver pre proc post x).2.indexOf
        (StageEvent.completed Stage.preStage) <
      (runDriver pre proc post x).2.indexOf
        (StageEvent.started Stage.procStage)) ∧
    ((runDriver pre proc post x).2.indexOf
        (StageEvent.completed Stage.procStage) <
      (runDriver pre proc post x).2.indexOf
        (StageEvent.started Stage.postStage)) ∧
    (runDriver pre proc post x).1 = post (proc (pre x)) := by
  have htrace : (runDriver pre proc post x).2 =
      [StageEvent.started Stage.preStage, StageEvent.completed Stage.preStage,
       StageEvent.started Stage.procStage, StageEvent.completed Stage.procStage,
       StageEvent.started Stage.postStage,
       StageEvent.completed Stage.postStage] := rfl
  refine ⟨htrace, ?_, ?_, rfl⟩ <;> rw [htrace] <;> decide

end ConvertProcessor
